import Mathlib

/-
Verification of skchem.descriptors.atom (skchem/features/atom.py):
a shallow embedding of the atom-based descriptor generators and
the distance-matrix transformers, with theorems checking the module's
specified behaviour.
-/

set_option autoImplicit false

namespace SkChem

/-- Hybridization states of the external toolkit's HybridizationType
enumeration (rdkit.Chem.rdchem.HybridizationType). -/
inductive HybridizationType where
  | UNSPECIFIED
  | S
  | SP
  | SP2
  | SP3
  | SP3D
  | SP3D2
  | OTHER
  deriving DecidableEq

/-- The string rendering of a hybridization enumerant, as Python's str()
produces for the toolkit enum (the enumerant's name). -/
def HybridizationType.str : HybridizationType → String
  | .UNSPECIFIED => "UNSPECIFIED"
  | .S => "S"
  | .SP => "SP"
  | .SP2 => "SP2"
  | .SP3 => "SP3"
  | .SP3D => "SP3D"
  | .SP3D2 => "SP3D2"
  | .OTHER => "OTHER"

/-- All hybridization enumerants. -/
def HybridizationType.values : List HybridizationType :=
  [.UNSPECIFIED, .S, .SP, .SP2, .SP3, .SP3D, .SP3D2, .OTHER]

/-- HybridizationType.names: the name strings of the toolkit enumeration,
iterated by the generator of hybridization features. -/
def HybridizationType.names : List String :=
  HybridizationType.values.map HybridizationType.str

/-- An atom, embedded as the record of values the toolkit getters and the
owning-molecule-context computations return for it.  Fields named Get...
mirror the toolkit getter of the same name; the remaining fields model
per-atom values the source obtains through the owning molecule or the
periodic-table resource. -/
structure Atom where
  GetSymbol : String
  GetAtomicNum : Int
  atomic_mass : ℚ
  GetExplicitValence : Int
  GetImplicitValence : Int
  GetFormalCharge : Int
  GetIsAromatic : Bool
  GetNumImplicitHs : Int
  GetNumExplicitHs : Int
  IsInRing : Bool
  GetHybridization : HybridizationType
  /-- whether the atom's index appears in Lipinski._HAcceptors of its mol -/
  lipinskiHAcceptor : Bool
  /-- whether the atom's index appears in Lipinski._HDonors of its mol -/
  lipinskiHDonor : Bool
  /-- whether the atom's index appears in Lipinski._Heteroatoms of its mol -/
  lipinskiHeteroatom : Bool
  /-- Crippen._GetAtomContribs(m)[idx][0] -/
  crippenLogPContrib : ℚ
  /-- Crippen._GetAtomContribs(m)[idx][1] -/
  crippenMRContrib : ℚ
  /-- rdMolDescriptors._CalcTPSAContribs(m)[idx] -/
  tpsaAtomContrib : ℚ
  /-- rdMolDescriptors._CalcLabuteASAContribs(m)[0][idx] -/
  labuteASAAtomContrib : ℚ
  /-- the cached _GasteigerCharge property, when present (props.get) -/
  propsGasteigerCharge : Option ℚ
  /-- the value rdPartialCharges.ComputeGasteigerCharges(m) stores for
  this atom when (re)computed -/
  gasteigerComputed : ℚ
  pauling_electronegativity : ℚ
  /-- PERIODIC_TABLE.loc[atomic_number, first_ionisation_energy] -/
  periodicFirstIonisation : ℚ
  /-- PERIODIC_TABLE.loc[atomic_number, group] -/
  periodicGroup : ℚ
  /-- PERIODIC_TABLE.loc[atomic_number, period] -/
  periodicPeriod : ℚ

/-- The scalar values feature functions produce (numbers, booleans or
strings, all promotable into a feature table cell). -/
inductive Scalar where
  | b (v : Bool)
  | i (v : Int)
  | q (v : ℚ)
  | s (v : String)
  deriving DecidableEq

/-- Modelled from the spec: ORGANIC, the organic-element set provided by
skchem.resource (not under src/) — one generated boolean feature per
chemical element of interest. -/
def ORGANIC : List String :=
  ["H", "B", "C", "N", "O", "F", "P", "S", "Cl", "Br", "I"]

/-- element: return the element symbol of the atom. -/
def element (a : Atom) : String :=
  a.GetSymbol

/-- is_element: is the atom of the given element (source default symbol is
the string C; the generated family always passes symbol explicitly). -/
def is_element (a : Atom) (symbol : String) : Bool :=
  element a == symbol

/-- One generated element feature, named is_<e>, with the element bound by
value through functools partial application. -/
def genElementFeature (e : String) : String × (Atom → Scalar) :=
  ("is_" ++ e, fun a => Scalar.b (is_element a e))

/-- element_features: the generated family of per-element boolean features. -/
def element_features : List (String × (Atom → Scalar)) :=
  ORGANIC.map genElementFeature

/-- is_h_acceptor: is an H acceptor? (index-membership in the toolkit's
Lipinski H-acceptor list of the owning molecule). -/
def is_h_acceptor (a : Atom) : Bool :=
  a.lipinskiHAcceptor

/-- is_h_donor: is an H donor? -/
def is_h_donor (a : Atom) : Bool :=
  a.lipinskiHDonor

/-- is_hetero: is a heteroatom? -/
def is_hetero (a : Atom) : Bool :=
  a.lipinskiHeteroatom

/-- atomic_number: atomic number of atom. -/
def atomic_number (a : Atom) : Int :=
  a.GetAtomicNum

/-- atomic_mass: atomic mass of atom. -/
def atomic_mass (a : Atom) : ℚ :=
  a.atomic_mass

/-- explicit_valence: explicit valence of atom. -/
def explicit_valence (a : Atom) : Int :=
  a.GetExplicitValence

/-- implicit_valence: implicit valence of atom. -/
def implicit_valence (a : Atom) : Int :=
  a.GetImplicitValence

/-- valence: returns the valence of the atom. -/
def valence (a : Atom) : Int :=
  explicit_valence a + implicit_valence a

/-- formal_charge: formal charge of atom. -/
def formal_charge (a : Atom) : Int :=
  a.GetFormalCharge

/-- is_aromatic: boolean if atom is aromatic. -/
def is_aromatic (a : Atom) : Bool :=
  a.GetIsAromatic

/-- num_implicit_hydrogens: number of implicit hydrogens. -/
def num_implicit_hydrogens (a : Atom) : Int :=
  a.GetNumImplicitHs

/-- num_explicit_hydrogens: number of explicit hydrogens. -/
def num_explicit_hydrogens (a : Atom) : Int :=
  a.GetNumExplicitHs

/-- num_hydrogens: number of hydrogens. -/
def num_hydrogens (a : Atom) : Int :=
  num_implicit_hydrogens a + num_explicit_hydrogens a

/-- is_in_ring: whether the atom is in a ring. -/
def is_in_ring (a : Atom) : Bool :=
  a.IsInRing

/-- crippen_log_p_contrib: logP contribution of the atom. -/
def crippen_log_p_contrib (a : Atom) : ℚ :=
  a.crippenLogPContrib

/-- crippen_molar_refractivity_contrib: molar refractivity contribution. -/
def crippen_molar_refractivity_contrib (a : Atom) : ℚ :=
  a.crippenMRContrib

/-- tpsa_contrib: total polar surface area contribution. -/
def tpsa_contrib (a : Atom) : ℚ :=
  a.tpsaAtomContrib

/-- labute_asa_contrib: accessible surface area contribution. -/
def labute_asa_contrib (a : Atom) : ℚ :=
  a.labuteASAAtomContrib

/-- Result of gasteiger_charge, recording whether the returned value came
from the cached atom property or from a fresh whole-molecule computation. -/
inductive GCResult where
  | cached (v : ℚ)
  | recomputed (v : ℚ)
  deriving DecidableEq

/-- The numeric value carried by a GCResult. -/
def GCResult.value : GCResult → ℚ
  | .cached v => v
  | .recomputed v => v

/-- gasteiger_charge: return the cached _GasteigerCharge property when it is
present, truthy (a nonzero number) and no forced recomputation is requested;
otherwise recompute Gasteiger charges for the owning molecule and return the
freshly stored value. -/
def gasteiger_charge (a : Atom) (force_calc : Bool) : GCResult :=
  match a.propsGasteigerCharge with
  | some res => if res != 0 && !force_calc then .cached res
                else .recomputed a.gasteigerComputed
  | none => .recomputed a.gasteigerComputed

/-- pauling_electronegativity of the atom. -/
def pauling_electronegativity (a : Atom) : ℚ :=
  a.pauling_electronegativity

/-- first_ionization: periodic-table lookup of first ionisation energy. -/
def first_ionization (a : Atom) : ℚ :=
  a.periodicFirstIonisation

/-- group: periodic-table lookup of the group. -/
def group (a : Atom) : ℚ :=
  a.periodicGroup

/-- period: periodic-table lookup of the period. -/
def period (a : Atom) : ℚ :=
  a.periodicPeriod

/-- is_hybridized: hybridized as type hybrid_type (source default SP3),
comparing the str renderings as the source does. -/
def is_hybridized (a : Atom) (hybrid_type : HybridizationType) : Bool :=
  HybridizationType.str a.GetHybridization == HybridizationType.str hybrid_type

/-- One generated hybridization feature, named is_<n>_hybridized for a name
string n of the enumeration; the source passes the name string n as
hybrid_type, and Python's str() on a string is the identity, so the test
compares str(GetHybridization()) with n. -/
def genHybridizationFeature (n : String) : String × (Atom → Scalar) :=
  ("is_" ++ n ++ "_hybridized",
   fun a => Scalar.b (HybridizationType.str a.GetHybridization == n))

/-- hybridization_features: the generated family of per-state boolean
features, one per name of the hybridization enumeration. -/
def hybridization_features : List (String × (Atom → Scalar)) :=
  HybridizationType.names.map genHybridizationFeature

/-- ATOM_FEATURES: the feature registry — the static table, updated with the
generated element features and the generated hybridization features (the
Python dict updates append, since no keys collide). -/
def ATOM_FEATURES : List (String × (Atom → Scalar)) :=
  [("atomic_number", fun a => Scalar.i (atomic_number a)),
   ("atomic_mass", fun a => Scalar.q (atomic_mass a)),
   ("formal_charge", fun a => Scalar.i (formal_charge a)),
   ("gasteiger_charge", fun a => Scalar.q (gasteiger_charge a false).value),
   ("pauling_electronegativity", fun a => Scalar.q (pauling_electronegativity a)),
   ("first_ionisation", fun a => Scalar.q (first_ionization a)),
   ("group", fun a => Scalar.q (group a)),
   ("period", fun a => Scalar.q (period a)),
   ("valence", fun a => Scalar.i (valence a)),
   ("is_aromatic", fun a => Scalar.b (is_aromatic a)),
   ("num_hydrogens", fun a => Scalar.i (num_hydrogens a)),
   ("is_in_ring", fun a => Scalar.b (is_in_ring a)),
   ("log_p_contrib", fun a => Scalar.q (crippen_log_p_contrib a)),
   ("molar_refractivity_contrib", fun a => Scalar.q (crippen_molar_refractivity_contrib a)),
   ("is_h_acceptor", fun a => Scalar.b (is_h_acceptor a)),
   ("is_h_donor", fun a => Scalar.b (is_h_donor a)),
   ("is_heteroatom", fun a => Scalar.b (is_hetero a)),
   ("total_polar_surface_area_contrib", fun a => Scalar.q (tpsa_contrib a)),
   ("total_labute_accessible_surface_area", fun a => Scalar.q (labute_asa_contrib a))]
  ++ element_features ++ hybridization_features

/-- The shapes a value supplied to the features setter can take: a string,
a list of names, a name-to-function mapping (dict or pandas Series), or any
other value (a number, say). -/
inductive FeatureSpec where
  | str (s : String)
  | list (l : List String)
  | mapping (m : List (String × (Atom → Scalar)))
  | other

/-- Errors of the features setter: UnknownFeatureName models the KeyError a
registry miss raises, UnsupportedFeatureSpec the NotImplementedError for an
unrecognized shape (the spec's error taxonomy names). -/
inductive FeaturesError where
  | UnknownFeatureName (name : String)
  | UnsupportedFeatureSpec
  deriving DecidableEq

/-- Registry lookup, ATOM_FEATURES[name] of the Python dict (keys are
unique, so the first match is the entry). -/
def lookupFeature (name : String) : Option (Atom → Scalar) :=
  (ATOM_FEATURES.find? (fun p => p.1 == name)).map (fun p => p.2)

/-- The list branch of the setter: evaluate the registry lookup for each
requested name in order, failing at the first name absent from the registry,
exactly as the dict comprehension does. -/
def lookupList : List String → Except FeaturesError (List (String × (Atom → Scalar)))
  | [] => .ok []
  | k :: ks =>
    match lookupFeature k with
    | none => .error (.UnknownFeatureName k)
    | some f =>
      match lookupList ks with
      | .error e => .error e
      | .ok rest => .ok ((k, f) :: rest)

/-- Python dict insertion: a duplicate key updates the value at the key's
existing position, a new key is appended. -/
def dictInsert (acc : List (String × (Atom → Scalar))) (p : String × (Atom → Scalar)) :
    List (String × (Atom → Scalar)) :=
  if acc.any (fun q => q.1 == p.1) then
    acc.map (fun q => if q.1 == p.1 then (q.1, p.2) else q)
  else acc ++ [p]

/-- Build the Python dict of an ordered list of key-value pairs. -/
def dictOfPairs (ps : List (String × (Atom → Scalar))) :
    List (String × (Atom → Scalar)) :=
  ps.foldl dictInsert []

/-- The features setter of AtomFeaturizer: the literal all selects the whole
registry; any other string selects that single registered feature; a list
selects the named features in order (as a dict); a mapping is taken
verbatim; anything else is an unsupported specification. -/
def setFeatures : FeatureSpec → Except FeaturesError (List (String × (Atom → Scalar)))
  | .str s =>
    if s == "all" then .ok ATOM_FEATURES
    else
      match lookupFeature s with
      | some f => .ok [(s, f)]
      | none => .error (.UnknownFeatureName s)
  | .list l =>
    match lookupList l with
    | .error e => .error e
    | .ok ps => .ok (dictOfPairs ps)
  | .mapping m => .ok m
  | .other => .error .UnsupportedFeatureSpec

/-- minor_axis of an AtomFeaturizer: the index of the features Series, i.e.
the selected feature names in selection order. -/
def minor_axis (sel : List (String × (Atom → Scalar))) : List String :=
  sel.map (fun p => p.1)

/-- AtomFeaturizer transform of a single atom: apply every selected feature
function, in selection order. -/
def transform_atom (sel : List (String × (Atom → Scalar))) (a : Atom) : List Scalar :=
  sel.map (fun p => p.2 a)

/-- AtomFeaturizer transform of a molecule: one row per atom, in the
molecule's native atom order. -/
def transform_mol (sel : List (String × (Atom → Scalar))) (atoms : List Atom) :
    List (List Scalar) :=
  atoms.map (transform_atom sel)

/-- A 2D table of optional rationals: none is the not-a-number padding
sentinel, some a filled cell.  Cells outside rows times cols are not part
of the table. -/
structure NMat where
  rows : Nat
  cols : Nat
  entry : Nat → Nat → Option ℚ

/-- nanarray: an array of the given shape filled with the missing sentinel. -/
def nanarray (r c : Nat) : NMat :=
  ⟨r, c, fun _ _ => none⟩

/-- Slice assignment m[:r, :c] = D: overwrite the leading r-by-c block with
the values of D, leaving the rest of the array unchanged. -/
def sliceAssign (m : NMat) (r c : Nat) (D : Nat → Nat → ℚ) : NMat :=
  ⟨m.rows, m.cols, fun i j => if i < r ∧ j < c then some (D i j) else m.entry i j⟩

/-- Positional crop res.iloc[:r, :c]: keep the first r rows and c columns. -/
def ilocCrop (m : NMat) (r c : Nat) : NMat :=
  ⟨min r m.rows, min c m.cols, m.entry⟩

/-- A molecule as the distance transformers see it: its atom count and the
full pairwise distance matrices the toolkit computes for it
(Chem.GetDistanceMatrix and Chem.Get3DDistanceMatrix, both atom-count by
atom-count). -/
structure DistMol where
  natoms : Nat
  GetDistanceMatrix : Nat → Nat → ℚ
  Get3DDistanceMatrix : Nat → Nat → ℚ

/-- GraphDistanceTransformer transform_mol: a nan array of shape
(len(mol.atoms), max_atoms) whose [:k, :k] block is assigned the toolkit's
topological distance matrix. -/
def GraphDistanceTransformer.transform_mol (max_atoms : Nat) (mol : DistMol) : NMat :=
  sliceAssign (nanarray mol.natoms max_atoms) mol.natoms mol.natoms
    mol.GetDistanceMatrix

/-- SpacialDistanceTransformer transform_mol: a nan array of shape
(len(mol.atoms), max_atoms) whose [:, :k] slice (all of its rows) is
assigned the toolkit's 3D distance matrix. -/
def SpacialDistanceTransformer.transform_mol (max_atoms : Nat) (mol : DistMol) : NMat :=
  let res := nanarray mol.natoms max_atoms
  sliceAssign res res.rows mol.natoms mol.Get3DDistanceMatrix

/-- Modelled from the spec: the base transformer collaborator (skchem.base,
not under src/) supplies the generic transform loop; for a single molecule
it returns the table the concrete transform_mol produces, labeled along the
minor axis. -/
def baseTransformSingle (tm : DistMol → NMat) (mol : DistMol) : NMat :=
  tm mol

/-- DistanceTransformer.transform on a single molecule: the base transform
result, cropped with iloc to the molecule's atom count on both axes. -/
def DistanceTransformer.transform (tm : DistMol → NMat) (mol : DistMol) : NMat :=
  ilocCrop (baseTransformSingle tm mol) mol.natoms mol.natoms

/-- transform of GraphDistanceTransformer on a single molecule. -/
def GraphDistanceTransformer.transform (max_atoms : Nat) (mol : DistMol) : NMat :=
  DistanceTransformer.transform (GraphDistanceTransformer.transform_mol max_atoms) mol

/-- transform of SpacialDistanceTransformer on a single molecule. -/
def SpacialDistanceTransformer.transform (max_atoms : Nat) (mol : DistMol) : NMat :=
  DistanceTransformer.transform (SpacialDistanceTransformer.transform_mol max_atoms) mol

/-- A concrete carbon atom of a carbon-oxygen single-bond molecule: one
explicit bond, three implicit hydrogens, not aromatic, not in a ring.
Fields in declaration order: symbol, atomic number, mass, explicit valence,
implicit valence, formal charge, aromatic, implicit Hs, explicit Hs, in
ring, hybridization, H-acceptor, H-donor, heteroatom, Crippen logP, Crippen
MR, TPSA, Labute ASA, cached Gasteiger, computed Gasteiger, Pauling EN,
first ionisation, group, period. -/
def carbonAtom : Atom :=
  ⟨"C", 6, 12, 1, 3, 0, false, 3, 0, false, .SP3,
   false, false, false, 0, 0, 0, 0, none, 0, 2, 1086, 14, 2⟩

/-- The oxygen atom of the same molecule: one explicit bond, one implicit
hydrogen, not aromatic, not in a ring. -/
def oxygenAtom : Atom :=
  ⟨"O", 8, 16, 1, 1, 0, false, 1, 0, false, .SP3,
   true, true, true, 0, 0, 0, 0, none, 0, 3, 1314, 16, 2⟩

/-- The two-atom carbon-oxygen molecule, atoms in native order. -/
def coMol : List Atom :=
  [carbonAtom, oxygenAtom]

/-- An atom whose cached _GasteigerCharge property is present but zero
(falsy), while a fresh computation would store 5. -/
def zeroCacheAtom : Atom :=
  ⟨"N", 7, 14, 3, 0, 0, false, 0, 0, false, .SP3,
   true, false, true, 0, 0, 0, 0, some 0, 5, 3, 1402, 15, 2⟩

/-- A two-atom molecule for the distance-transformer witnesses, with
zero-diagonal distance matrices. -/
def twoAtomDistMol : DistMol :=
  ⟨2, fun i j => if i == j then 0 else 1, fun i j => if i == j then 0 else 1⟩

/-- A one-atom molecule exhibiting the shape of the uncropped subclass
table. -/
def oneAtomDistMol : DistMol :=
  ⟨1, fun _ _ => 0, fun _ _ => 0⟩

/-- Sanity of the registry embedding: the registry's keys are pairwise
distinct, so the association list coincides with the Python dict built by
the two updates. -/
lemma atom_features_keys_nodup : (ATOM_FEATURES.map (fun p => p.1)).Nodup := by
  decide

/-- String rendering is injective on hybridization enumerants. -/
lemma hyb_str_inj (x y : HybridizationType) :
    HybridizationType.str x = HybridizationType.str y ↔ x = y := by
  cases x <;> cases y <;> decide

/-- Every hybridization enumerant appears in the values list. -/
lemma hyb_mem_values (h : HybridizationType) : h ∈ HybridizationType.values := by
  cases h <;> decide

/-- When every requested name is registered, the list lookup succeeds and
returns pairs keyed by exactly the requested names in order. -/
lemma lookupList_ok_names (l : List String)
    (hl : l.all (fun n => (lookupFeature n).isSome) = true) :
    ∃ ps, lookupList l = Except.ok ps ∧ ps.map (fun p => p.1) = l := by
  induction l with
  | nil => exact ⟨[], rfl, rfl⟩
  | cons k ks ih =>
    simp only [List.all_cons, Bool.and_eq_true] at hl
    obtain ⟨f, hf⟩ := Option.isSome_iff_exists.mp hl.1
    obtain ⟨ps, hps, hnames⟩ := ih hl.2
    refine ⟨(k, f) :: ps, ?_, ?_⟩
    · simp [lookupList, hf, hps]
    · simp [hnames]

/-- The list lookup fails with the first requested name absent from the
registry (the KeyError of the dict comprehension). -/
lemma lookupList_error_first (l : List String) (k : String)
    (hk : l.find? (fun n => (lookupFeature n).isNone) = some k) :
    lookupList l = Except.error (.UnknownFeatureName k) := by
  induction l with
  | nil => simp at hk
  | cons n ns ih =>
    cases hn : lookupFeature n with
    | none =>
      rw [List.find?_cons_of_pos] at hk
      · cases hk
        simp [lookupList, hn]
      · simp [hn]
    | some f =>
      rw [List.find?_cons_of_neg] at hk
      · simp [lookupList, hn, ih hk]
      · simp [hn]

/-- Inserting a fresh key into a dict appends it. -/
lemma dictInsert_fresh (acc : List (String × (Atom → Scalar)))
    (p : String × (Atom → Scalar))
    (h : acc.any (fun q => q.1 == p.1) = false) :
    dictInsert acc p = acc ++ [p] := by
  simp [dictInsert, h]

/-- Folding dict insertion over pairs with keys all distinct from each
other and from the accumulator's keys just appends the pairs. -/
lemma dictOfPairs_of_nodup_aux (ps : List (String × (Atom → Scalar))) :
    ∀ acc, (((acc ++ ps).map (fun p => p.1)).Nodup) →
      ps.foldl dictInsert acc = acc ++ ps := by
  induction ps with
  | nil => intro acc _; simp
  | cons p ps ih =>
    intro acc hnd
    have hfresh : acc.any (fun q => q.1 == p.1) = false := by
      rw [List.any_eq_false]
      intro q hq hqp
      rw [beq_iff_eq] at hqp
      have hq1 : q.1 ∈ (acc.map (fun r => r.1)) := List.mem_map_of_mem _ hq
      have hp1 : p.1 ∈ ((p :: ps).map (fun r => r.1)) := by simp
      rw [List.map_append, List.nodup_append] at hnd
      exact hnd.2.2 hq1 (by rw [hqp]; exact hp1)
    have step : List.foldl dictInsert acc (p :: ps) =
        List.foldl dictInsert (acc ++ [p]) ps := by
      simp [List.foldl_cons, dictInsert_fresh acc p hfresh]
    rw [step, ih (acc ++ [p]) (by simpa using hnd)]
    simp

/-- Building the dict of pairs with pairwise-distinct keys preserves the
pairs and their order. -/
lemma dictOfPairs_of_nodup (ps : List (String × (Atom → Scalar)))
    (hnd : (ps.map (fun p => p.1)).Nodup) :
    dictOfPairs ps = ps := by
  have := dictOfPairs_of_nodup_aux ps [] (by simpa using hnd)
  simpa [dictOfPairs] using this

/-- C1: configuring an AtomFeaturizer's feature selection fails with an
UnsupportedFeatureSpec error when the supplied value is not one of the
recognized shapes (the literal all, a single name string, a list of names,
or a name-to-function mapping), and fails with an UnknownFeatureName error
when a supplied name string, or the first failing list entry, is absent
from the feature registry. -/
theorem C1_feature_spec_errors (s : String) (l : List String) (k : String)
    (hs : s ≠ "all") (hm : (lookupFeature s).isNone = true)
    (hk : l.find? (fun n => (lookupFeature n).isNone) = some k) :
    setFeatures .other = .error .UnsupportedFeatureSpec
    ∧ setFeatures (.str s) = .error (.UnknownFeatureName s)
    ∧ setFeatures (.list l) = .error (.UnknownFeatureName k) := by
  refine ⟨rfl, ?_, ?_⟩
  · have h1 : (s == "all") = false := by simp [hs]
    have h2 : lookupFeature s = none := Option.isNone_iff_eq_none.mp hm
    simp [setFeatures, h1, h2]
  · simp [setFeatures, lookupList_error_first l k hk]

/-- Witness for C1: an unregistered name, alone and inside a list, and the
unsupported shape. -/
theorem C1_feature_spec_errors_witness :
    ((lookupFeature "bogus").isNone = true
      ∧ ["is_C", "bogus"].find? (fun n => (lookupFeature n).isNone) = some "bogus")
    ∧ (setFeatures .other = .error .UnsupportedFeatureSpec
      ∧ setFeatures (.str "bogus") = .error (.UnknownFeatureName "bogus")
      ∧ setFeatures (.list ["is_C", "bogus"]) = .error (.UnknownFeatureName "bogus")) :=
  ⟨⟨by decide, by decide⟩,
   C1_feature_spec_errors "bogus" ["is_C", "bogus"] "bogus" (by decide) (by decide)
     (by decide)⟩

/-- C2 counterexample: a list with a duplicated name is accepted, yet the
output column labels are the deduplicated list, not the requested names in
the requested order. -/
theorem C2_duplicate_list_counterexample :
    Except.map minor_axis (setFeatures (.list ["is_C", "is_C"])) = Except.ok ["is_C"]
    ∧ ["is_C"] ≠ ["is_C", "is_C"] := by
  exact ⟨rfl, by decide⟩

/-- C2 (amended): for a registered single name the column labels are that
one name; for a list of distinct registered names they are exactly the
requested names in the requested order (a duplicated name collapses to its
first occurrence); and selecting all yields the registry's keys, whose
count is the registry size. -/
theorem C2_minor_axis_selection (s : String) (l : List String)
    (hs : (lookupFeature s).isSome = true) (hsa : s ≠ "all")
    (hl : l.all (fun n => (lookupFeature n).isSome) = true)
    (hnd : l.Nodup) :
    Except.map minor_axis (setFeatures (.str s)) = Except.ok [s]
    ∧ Except.map minor_axis (setFeatures (.list l)) = Except.ok l
    ∧ Except.map minor_axis (setFeatures (.str "all")) =
        Except.ok (ATOM_FEATURES.map (fun p => p.1))
    ∧ (minor_axis ATOM_FEATURES).length = ATOM_FEATURES.length := by
  refine ⟨?_, ?_, ?_, ?_⟩
  · obtain ⟨f, hf⟩ := Option.isSome_iff_exists.mp hs
    have h1 : (s == "all") = false := by simp [hsa]
    simp [setFeatures, h1, hf, minor_axis, Except.map]
  · obtain ⟨ps, hps, hnames⟩ := lookupList_ok_names l hl
    have hnd2 : (ps.map (fun p => p.1)).Nodup := by rw [hnames]; exact hnd
    simp [setFeatures, hps, dictOfPairs_of_nodup ps hnd2, minor_axis, hnames,
      Except.map]
  · simp [setFeatures, minor_axis, Except.map]
  · simp [minor_axis]

/-- Witness for C2: a single name, a two-name list and the all selection. -/
theorem C2_minor_axis_selection_witness :
    ((lookupFeature "atomic_number").isSome = true
      ∧ ["is_C", "is_O"].all (fun n => (lookupFeature n).isSome) = true
      ∧ (["is_C", "is_O"] : List String).Nodup)
    ∧ (Except.map minor_axis (setFeatures (.str "atomic_number")) =
        Except.ok ["atomic_number"]
      ∧ Except.map minor_axis (setFeatures (.list ["is_C", "is_O"])) =
          Except.ok ["is_C", "is_O"]
      ∧ Except.map minor_axis (setFeatures (.str "all")) =
          Except.ok (ATOM_FEATURES.map (fun p => p.1))
      ∧ (minor_axis ATOM_FEATURES).length = ATOM_FEATURES.length) :=
  ⟨⟨by decide, by decide, by decide⟩,
   C2_minor_axis_selection "atomic_number" ["is_C", "is_O"] (by decide) (by decide)
     (by decide) (by decide)⟩

/-- C3: for a single molecule with k atoms whose toolkit distance matrices
have a zero diagonal, both Distance Transformers return a table of shape
exactly k by k whose diagonal is zero and whose cells all carry computed
distances — the missing (not-a-number) padding sentinel appears nowhere in
the single-molecule result. -/
theorem C3_single_molecule_distance (mol : DistMol) (max_atoms : Nat)
    (hmax : mol.natoms ≤ max_atoms)
    (hg : ∀ i, mol.GetDistanceMatrix i i = 0)
    (hsd : ∀ i, mol.Get3DDistanceMatrix i i = 0) :
    ((GraphDistanceTransformer.transform max_atoms mol).rows = mol.natoms
      ∧ (GraphDistanceTransformer.transform max_atoms mol).cols = mol.natoms
      ∧ (∀ i j, i < mol.natoms → j < mol.natoms →
          (GraphDistanceTransformer.transform max_atoms mol).entry i j =
            some (mol.GetDistanceMatrix i j))
      ∧ (∀ i, i < mol.natoms →
          (GraphDistanceTransformer.transform max_atoms mol).entry i i = some 0))
    ∧ ((SpacialDistanceTransformer.transform max_atoms mol).rows = mol.natoms
      ∧ (SpacialDistanceTransformer.transform max_atoms mol).cols = mol.natoms
      ∧ (∀ i j, i < mol.natoms → j < mol.natoms →
          (SpacialDistanceTransformer.transform max_atoms mol).entry i j =
            some (mol.Get3DDistanceMatrix i j))
      ∧ (∀ i, i < mol.natoms →
          (SpacialDistanceTransformer.transform max_atoms mol).entry i i = some 0)) := by
  refine ⟨⟨?_, ?_, ?_, ?_⟩, ⟨?_, ?_, ?_, ?_⟩⟩
  · simp [GraphDistanceTransformer.transform, DistanceTransformer.transform,
      baseTransformSingle, GraphDistanceTransformer.transform_mol, ilocCrop,
      sliceAssign, nanarray]
  · simp [GraphDistanceTransformer.transform, DistanceTransformer.transform,
      baseTransformSingle, GraphDistanceTransformer.transform_mol, ilocCrop,
      sliceAssign, nanarray, Nat.min_eq_left hmax]
  · intro i j hi hj
    simp [GraphDistanceTransformer.transform, DistanceTransformer.transform,
      baseTransformSingle, GraphDistanceTransformer.transform_mol, ilocCrop,
      sliceAssign, nanarray, hi, hj]
  · intro i hi
    simp [GraphDistanceTransformer.transform, DistanceTransformer.transform,
      baseTransformSingle, GraphDistanceTransformer.transform_mol, ilocCrop,
      sliceAssign, nanarray, hi, hg i]
  · simp [SpacialDistanceTransformer.transform, DistanceTransformer.transform,
      baseTransformSingle, SpacialDistanceTransformer.transform_mol, ilocCrop,
      sliceAssign, nanarray]
  · simp [SpacialDistanceTransformer.transform, DistanceTransformer.transform,
      baseTransformSingle, SpacialDistanceTransformer.transform_mol, ilocCrop,
      sliceAssign, nanarray, Nat.min_eq_left hmax]
  · intro i j hi hj
    simp [SpacialDistanceTransformer.transform, DistanceTransformer.transform,
      baseTransformSingle, SpacialDistanceTransformer.transform_mol, ilocCrop,
      sliceAssign, nanarray, hi, hj]
  · intro i hi
    simp [SpacialDistanceTransformer.transform, DistanceTransformer.transform,
      baseTransformSingle, SpacialDistanceTransformer.transform_mol, ilocCrop,
      sliceAssign, nanarray, hi, hsd i]

/-- Witness for C3: a two-atom molecule cropped from a three-column padded
table. -/
theorem C3_single_molecule_distance_witness :
    ((2 : Nat) ≤ 3
      ∧ (GraphDistanceTransformer.transform 3 twoAtomDistMol).rows = 2
      ∧ (GraphDistanceTransformer.transform 3 twoAtomDistMol).cols = 2
      ∧ (GraphDistanceTransformer.transform 3 twoAtomDistMol).entry 0 0 = some 0
      ∧ (GraphDistanceTransformer.transform 3 twoAtomDistMol).entry 0 1 =
          some (twoAtomDistMol.GetDistanceMatrix 0 1)
      ∧ (SpacialDistanceTransformer.transform 3 twoAtomDistMol).rows = 2
      ∧ (SpacialDistanceTransformer.transform 3 twoAtomDistMol).entry 1 1 = some 0) := by
  have H := C3_single_molecule_distance twoAtomDistMol 3 (by decide)
    (fun i => by simp [twoAtomDistMol]) (fun i => by simp [twoAtomDistMol])
  exact ⟨by decide, H.1.1, H.1.2.1, H.1.2.2.2 0 (by decide),
    H.1.2.2.1 0 1 (by decide) (by decide), H.2.1, H.2.2.2.2 1 (by decide)⟩

/-- C4 counterexample: the uncropped table the concrete subclasses compute
for a one-atom molecule with max_atoms 2 has one row, not the
max-atom-count two rows the claim states. -/
theorem C4_max_square_counterexample :
    (GraphDistanceTransformer.transform_mol 2 oneAtomDistMol).rows = 1
    ∧ (SpacialDistanceTransformer.transform_mol 2 oneAtomDistMol).rows = 1
    ∧ (1 : Nat) ≠ 2 :=
  ⟨rfl, rfl, by decide⟩

/-- C4 (amended): for a single molecule, transform first computes the
concrete subclass's atom-count by max-atom-count table (rows limited to the
molecule's atom count, columns padded to max_atoms) and then crops it with
iloc to exactly atom_count by atom_count before returning it. -/
theorem C4_pad_then_crop (mol : DistMol) (max_atoms : Nat)
    (hmax : mol.natoms ≤ max_atoms) :
    ((GraphDistanceTransformer.transform_mol max_atoms mol).rows = mol.natoms
      ∧ (GraphDistanceTransformer.transform_mol max_atoms mol).cols = max_atoms
      ∧ GraphDistanceTransformer.transform max_atoms mol =
          ilocCrop (GraphDistanceTransformer.transform_mol max_atoms mol)
            mol.natoms mol.natoms
      ∧ (GraphDistanceTransformer.transform max_atoms mol).rows = mol.natoms
      ∧ (GraphDistanceTransformer.transform max_atoms mol).cols = mol.natoms)
    ∧ ((SpacialDistanceTransformer.transform_mol max_atoms mol).rows = mol.natoms
      ∧ (SpacialDistanceTransformer.transform_mol max_atoms mol).cols = max_atoms
      ∧ SpacialDistanceTransformer.transform max_atoms mol =
          ilocCrop (SpacialDistanceTransformer.transform_mol max_atoms mol)
            mol.natoms mol.natoms
      ∧ (SpacialDistanceTransformer.transform max_atoms mol).rows = mol.natoms
      ∧ (SpacialDistanceTransformer.transform max_atoms mol).cols = mol.natoms) := by
  refine ⟨⟨rfl, rfl, rfl, ?_, ?_⟩, ⟨rfl, rfl, rfl, ?_, ?_⟩⟩
  · simp [GraphDistanceTransformer.transform, DistanceTransformer.transform,
      baseTransformSingle, GraphDistanceTransformer.transform_mol, ilocCrop,
      sliceAssign, nanarray]
  · simp [GraphDistanceTransformer.transform, DistanceTransformer.transform,
      baseTransformSingle, GraphDistanceTransformer.transform_mol, ilocCrop,
      sliceAssign, nanarray, Nat.min_eq_left hmax]
  · simp [SpacialDistanceTransformer.transform, DistanceTransformer.transform,
      baseTransformSingle, SpacialDistanceTransformer.transform_mol, ilocCrop,
      sliceAssign, nanarray]
  · simp [SpacialDistanceTransformer.transform, DistanceTransformer.transform,
      baseTransformSingle, SpacialDistanceTransformer.transform_mol, ilocCrop,
      sliceAssign, nanarray, Nat.min_eq_left hmax]

/-- Witness for C4: the two-atom molecule padded to three columns and
cropped back to two by two. -/
theorem C4_pad_then_crop_witness :
    ((2 : Nat) ≤ 3
      ∧ (GraphDistanceTransformer.transform_mol 3 twoAtomDistMol).rows = 2
      ∧ (GraphDistanceTransformer.transform_mol 3 twoAtomDistMol).cols = 3
      ∧ (GraphDistanceTransformer.transform 3 twoAtomDistMol).rows = 2
      ∧ (GraphDistanceTransformer.transform 3 twoAtomDistMol).cols = 2
      ∧ (SpacialDistanceTransformer.transform_mol 3 twoAtomDistMol).cols = 3
      ∧ (SpacialDistanceTransformer.transform 3 twoAtomDistMol).cols = 2) := by
  have H := C4_pad_then_crop twoAtomDistMol 3 (by decide)
  exact ⟨by decide, H.1.1, H.1.2.1, H.1.2.2.2.1, H.1.2.2.2.2, H.2.2.1,
    H.2.2.2.2.2⟩

/-- C5: for every element e of the organic-element set, the generated
feature named is_<e> returns true on an atom exactly when the atom's
element symbol equals e — each generated function tests against its own
element, not the last element of the generating loop — and two generated
element features for distinct elements are never both true on one atom. -/
theorem C5_element_feature_correct (e : String) (he : e ∈ ORGANIC) (a : Atom) :
    genElementFeature e ∈ element_features
    ∧ (genElementFeature e).1 = "is_" ++ e
    ∧ ((genElementFeature e).2 a = Scalar.b true ↔ element a = e)
    ∧ (∀ e2, e2 ∈ ORGANIC → e2 ≠ e →
        ¬((genElementFeature e2).2 a = Scalar.b true
          ∧ (genElementFeature e).2 a = Scalar.b true)) := by
  refine ⟨List.mem_map_of_mem _ he, rfl, ?_, ?_⟩
  · simp [genElementFeature, is_element, element]
  · rintro e2 _ hne ⟨h2, h1⟩
    simp only [genElementFeature, is_element, element, Scalar.b.injEq,
      beq_iff_eq] at h2 h1
    exact hne (h2.symm.trans h1)

/-- Witness for C5: the carbon feature on the carbon atom, with the oxygen
feature excluded. -/
theorem C5_element_feature_correct_witness :
    ("C" ∈ ORGANIC)
    ∧ genElementFeature "C" ∈ element_features
    ∧ ((genElementFeature "C").2 carbonAtom = Scalar.b true
        ↔ element carbonAtom = "C")
    ∧ ¬((genElementFeature "O").2 carbonAtom = Scalar.b true
        ∧ (genElementFeature "C").2 carbonAtom = Scalar.b true) := by
  have H := C5_element_feature_correct "C" (by decide) carbonAtom
  exact ⟨by decide, H.1, H.2.2.1, H.2.2.2 "O" (by decide) (by decide)⟩

/-- C6: for every hybridization state h, the generated feature named
is_<h>_hybridized returns true on an atom exactly when the atom's
hybridization enumerant equals h, and two generated hybridization features
for distinct states are never both true on one atom. -/
theorem C6_hybridization_feature_correct (h : HybridizationType) (a : Atom) :
    genHybridizationFeature (HybridizationType.str h) ∈ hybridization_features
    ∧ (genHybridizationFeature (HybridizationType.str h)).1 =
        "is_" ++ HybridizationType.str h ++ "_hybridized"
    ∧ ((genHybridizationFeature (HybridizationType.str h)).2 a = Scalar.b true
        ↔ a.GetHybridization = h)
    ∧ (∀ h2, h2 ≠ h →
        ¬((genHybridizationFeature (HybridizationType.str h2)).2 a = Scalar.b true
          ∧ (genHybridizationFeature (HybridizationType.str h)).2 a = Scalar.b true)) := by
  refine ⟨?_, rfl, ?_, ?_⟩
  · exact List.mem_map_of_mem _ (List.mem_map_of_mem _ (hyb_mem_values h))
  · simp only [genHybridizationFeature, Scalar.b.injEq, beq_iff_eq]
    exact hyb_str_inj a.GetHybridization h
  · rintro h2 hne ⟨hx2, hx1⟩
    simp only [genHybridizationFeature, Scalar.b.injEq, beq_iff_eq] at hx2 hx1
    have e2 : a.GetHybridization = h2 := (hyb_str_inj _ _).mp hx2
    have e1 : a.GetHybridization = h := (hyb_str_inj _ _).mp hx1
    exact hne (e2.symm.trans e1)

/-- Witness for C6: the SP3 feature on the SP3-hybridized carbon atom, with
the SP2 feature excluded. -/
theorem C6_hybridization_feature_correct_witness :
    genHybridizationFeature "SP3" ∈ hybridization_features
    ∧ ((genHybridizationFeature "SP3").2 carbonAtom = Scalar.b true
        ↔ carbonAtom.GetHybridization = HybridizationType.SP3)
    ∧ ¬((genHybridizationFeature "SP2").2 carbonAtom = Scalar.b true
        ∧ (genHybridizationFeature "SP3").2 carbonAtom = Scalar.b true) := by
  have H := C6_hybridization_feature_correct HybridizationType.SP3 carbonAtom
  exact ⟨H.1, H.2.2.1, H.2.2.2 HybridizationType.SP2 (by decide)⟩

/-- C7: the two-atom carbon-oxygen single-bond molecule, featurized with
the list is_C, is_O, is_aromatic, is_in_ring, yields the row true, false,
false, false for atom 0 (the carbon) and the row false, true, false, false
for atom 1 (the oxygen), atoms in the molecule's native order. -/
theorem C7_two_atom_example :
    Except.map (fun sel => transform_mol sel coMol)
      (setFeatures (.list ["is_C", "is_O", "is_aromatic", "is_in_ring"])) =
    Except.ok [[Scalar.b true, Scalar.b false, Scalar.b false, Scalar.b false],
               [Scalar.b false, Scalar.b true, Scalar.b false, Scalar.b false]] := rfl

/-- C8: the registered valence feature is the sum of the explicit and the
implicit valence, for every atom. -/
theorem C8_valence_sum (a : Atom) :
    valence a = explicit_valence a + implicit_valence a := rfl

/-- C9: with force_calc false, a present but falsy (zero) cached
_GasteigerCharge is ignored and the charges are recomputed for the owning
molecule; the cached value is returned without recomputation exactly when
it is truthy. -/
theorem C9_gasteiger_cache_truthiness (a : Atom) (v : ℚ)
    (hv : a.propsGasteigerCharge = some v) :
    (v = 0 → gasteiger_charge a false = .recomputed a.gasteigerComputed)
    ∧ (v ≠ 0 → gasteiger_charge a false = .cached v) := by
  constructor
  · intro h0
    subst h0
    simp [gasteiger_charge, hv]
  · intro hne
    simp [gasteiger_charge, hv, hne]

/-- Witness for C9: an atom caching a zero charge is recomputed. -/
theorem C9_gasteiger_cache_truthiness_witness :
    (zeroCacheAtom.propsGasteigerCharge = some 0)
    ∧ gasteiger_charge zeroCacheAtom false =
        .recomputed zeroCacheAtom.gasteigerComputed :=
  ⟨rfl, (C9_gasteiger_cache_truthiness zeroCacheAtom 0 rfl).1 rfl⟩

/-- C10: a mapping (dict or Series) is accepted verbatim with no validation
against the registry: configuration succeeds for every mapping and the
entries become the selection unchanged. -/
theorem C10_mapping_verbatim (m : List (String × (Atom → Scalar))) :
    setFeatures (.mapping m) = Except.ok m := rfl

end SkChem
